import Mathlib

/-!
Verification of `strix/proxy_config.py`: a shallow embedding of the module's
data model and operations, plus the part of CPython's `urllib.parse` that the
module relies on (`urlparse` restricted to the attributes it reads: `scheme`,
`hostname`, `port`, and the exceptions those can raise).

Modelling conventions:
* Python `str` is Lean `String` (operated on as `List Char` internally).
* Python `None`-able strings are `Option String`; Python truthiness of such a
  value is `truthy` below (`None` and `""` are falsy).
* Python `dict[str, str]` results are association lists in insertion order.
* Raising is `Except`: `ValidationError` models the `ValueError` raised by
  `_validate_proxy_url` (which always wraps an inner exception via `from e`;
  the inner exception is kept as the structured `cause` field).
* `os.environ` is an association list with shadowing update (only observed
  through `Env.get`).
-/

deriving instance DecidableEq for Except

namespace Strix

/-! ## Basic string helpers (Python `str` operations used by `urllib.parse`) -/

/-- Split a list at the first occurrence of `c`: returns the part before and
the part after (separator removed), or `none` when `c` does not occur.
This is the engine behind Python `str.find`/`str.partition`/`str.split(sep, 1)`. -/
def splitFirst (c : Char) : List Char → Option (List Char × List Char)
  | [] => none
  | x :: xs =>
    if x = c then some ([], xs)
    else (splitFirst c xs).map (fun p => (x :: p.1, p.2))

/-- Python `netloc.rpartition(sep)[2]` for a one-character separator: the part
after the last occurrence of `c`, or the whole list when `c` does not occur. -/
def afterLast (c : Char) (s : List Char) : List Char :=
  (s.reverse.takeWhile (fun x => !(x == c))).reverse

/-- Characters allowed after the first character of a URL scheme
(CPython `urllib.parse.scheme_chars`). -/
def schemeChar (c : Char) : Bool :=
  c.isAlpha || c.isDigit || c == '+' || c == '-' || c == '.'

/-- Python `str.lower()` on the ASCII strings relevant here, implemented on
the character list so that it evaluates by kernel reduction. -/
def lowerChars (s : List Char) : List Char :=
  s.map Char.toLower

/-- Characters that end the netloc in CPython `_splitnetloc` (`'/?#'`). -/
def netlocEnd (c : Char) : Bool :=
  c == '/' || c == '?' || c == '#'

/-- CPython strips leading/trailing C0-control and space characters from the
URL before parsing (`_WHATWG_C0_CONTROL_OR_SPACE`). -/
def stripControl (s : List Char) : List Char :=
  ((s.dropWhile (fun c => decide (c.toNat ≤ 32))).reverse.dropWhile
    (fun c => decide (c.toNat ≤ 32))).reverse

/-- CPython removes all tab, carriage-return and line-feed characters from the
URL (`_UNSAFE_URL_BYTES_TO_REMOVE`). -/
def removeUnsafe (s : List Char) : List Char :=
  s.filter (fun c => !(c == '\t' || c == '\r' || c == '\n'))

/-- The `port.isdigit() and port.isascii()` guard plus `int(port)` of CPython
`SplitResult.port`: a non-empty all-ASCII-digit string parses to its decimal
value, anything else (sign, spaces, other characters) is a cast failure. -/
def pyPortInt? (s : List Char) : Option Nat :=
  if s.isEmpty || !(s.all Char.isDigit) then none
  else some (s.foldl (fun a c => a * 10 + (c.toNat - 48)) 0)

/-! ## `urllib.parse.urlparse`, restricted to what `proxy_config.py` reads -/

/-- Result of CPython `urlsplit` (the `params` field of `urlparse` is never
read by the module, so `SplitResult` suffices). -/
structure SplitResult where
  scheme : String
  netloc : String
  path : String
  query : String
  fragment : String
deriving Repr, DecidableEq

/-- Scheme extraction of CPython `urlsplit`: the part before the first `:` is
the scheme when it is non-empty, starts with an ASCII letter, and its remaining
characters are all scheme characters; it is lowercased. Otherwise the scheme
is empty and the URL is left intact. -/
def splitScheme (url : List Char) : String × List Char :=
  match splitFirst ':' url with
  | none => ("", url)
  | some (before, after) =>
    match before with
    | [] => ("", url)
    | c0 :: rest =>
      if c0.isAlpha && rest.all schemeChar then
        (String.mk (lowerChars (c0 :: rest)), after)
      else ("", url)

/-- CPython `_splitnetloc`: netloc runs from after `//` to the first of
`/`, `?`, `#`. -/
def splitNetloc (rest : List Char) : List Char × List Char :=
  (rest.takeWhile (fun c => !(netlocEnd c)), rest.dropWhile (fun c => !(netlocEnd c)))

/-- CPython `urlsplit`/`urlparse` restricted to scheme/netloc/path/query/
fragment. The `Except` error is the message of the `ValueError` CPython raises
for a netloc with unbalanced square brackets ("Invalid IPv6 URL"). The
bracketed-host address validation and netloc NFKC check of newer CPython are
not modelled; no claim exercises them. -/
def urlparse (url : String) : Except String SplitResult :=
  let u1 := removeUnsafe (stripControl url.toList)
  let sp := splitScheme u1
  let scheme := sp.1
  let u2 := sp.2
  let nl :=
    if u2.take 2 = ['/', '/'] then splitNetloc (u2.drop 2)
    else ([], u2)
  let netloc := nl.1
  let u3 := nl.2
  if (netloc.contains '[' && !(netloc.contains ']')) ||
     (netloc.contains ']' && !(netloc.contains '[')) then
    .error "Invalid IPv6 URL"
  else
    let fr :=
      match splitFirst '#' u3 with
      | some p => p
      | none => (u3, [])
    let qu :=
      match splitFirst '?' fr.1 with
      | some p => p
      | none => (fr.1, [])
    .ok ⟨scheme, String.mk netloc, String.mk qu.1, String.mk qu.2, String.mk fr.2⟩

/-- CPython `SplitResult._hostinfo`: hostname and raw port string, extracted
from the netloc (after the last `@`; bracketed hosts handled; an empty port
string becomes `none`). -/
def SplitResult.hostinfo (r : SplitResult) : List Char × Option (List Char) :=
  let hostinfo := afterLast '@' r.netloc.toList
  match splitFirst '[' hostinfo with
  | some p =>
    let bracketed := p.2
    let hp :=
      match splitFirst ']' bracketed with
      | some q => q
      | none => (bracketed, [])
    let port :=
      match splitFirst ':' hp.2 with
      | some q => q.2
      | none => []
    (hp.1, if port = [] then none else some port)
  | none =>
    match splitFirst ':' hostinfo with
    | some q => (q.1, if q.2 = [] then none else some q.2)
    | none => (hostinfo, none)

/-- CPython `SplitResult.hostname`: the hostinfo hostname lowercased, or
`None` when it is empty. -/
def SplitResult.hostname (r : SplitResult) : Option String :=
  let h := r.hostinfo.1
  if h = [] then none else some (String.mk (lowerChars h))

/-- CPython `SplitResult.port`: `None` when no port string is present;
otherwise the string must be ASCII digits (a cast failure raises
`ValueError`), range-checked to 0..65535 (out of range raises `ValueError`). -/
def SplitResult.port (r : SplitResult) : Except String (Option Nat) :=
  match r.hostinfo.2 with
  | none => .ok none
  | some p =>
    match pyPortInt? p with
    | none => .error ("Port could not be cast to integer value as " ++ String.mk p)
    | some n =>
      if n ≤ 65535 then .ok (some n)
      else .error "Port out of range 0-65535"

/-! ## `ProxyConfig` and its validation -/

/-- Schemes accepted by `_validate_proxy_url`. -/
def supportedSchemes : List String := ["http", "https", "socks5", "socks5h"]

/-- The exception raised inside the `try` block of `_validate_proxy_url`:
either one of its own three `ValueError`s (bad scheme, missing hostname,
missing port) or a low-level parse failure propagating out of `urlparse` /
`parsed.port` (constructor `parseError`). Each constructor carries the Python
exception's message. -/
inductive FailKind where
  | badScheme (msg : String)
  | missingHost (msg : String)
  | missingPort (msg : String)
  | parseError (msg : String)
deriving Repr, DecidableEq

/-- Whether the inner exception is a low-level parse failure (as opposed to
one of the validator's own missing-component/bad-scheme errors). -/
def FailKind.isParseError : FailKind → Bool
  | .parseError _ => true
  | _ => false

/-- The `ValueError` that escapes `_validate_proxy_url`: the `except` clause
wraps every inner exception in
`ValueError("Invalid proxy URL in {env_var_name}: {proxy_url}") from e`,
so the escaping error always carries the field name, the URL, that fixed
message, and the inner exception as its cause. -/
structure ValidationError where
  envVar : String
  url : String
  msg : String
  cause : FailKind
deriving Repr, DecidableEq

/-- Body of the `try` block of `_validate_proxy_url`: parse, check the scheme
against `supportedSchemes`, check `parsed.hostname` truthy, check
`parsed.port` truthy (so port `0` also fails as "Missing port"). -/
def validateInner (proxyUrl envVarName : String) : Except FailKind Unit :=
  match urlparse proxyUrl with
  | .error m => .error (.parseError m)
  | .ok parsed =>
    if parsed.scheme ∉ supportedSchemes then
      .error (.badScheme ("Invalid proxy scheme in " ++ envVarName ++ ": " ++
        parsed.scheme ++ ". Supported schemes: http, https, socks5, socks5h"))
    else if parsed.hostname = none then
      .error (.missingHost ("Missing hostname in " ++ envVarName ++ ": " ++ proxyUrl))
    else
      match parsed.port with
      | .error m => .error (.parseError m)
      | .ok none =>
        .error (.missingPort ("Missing port in " ++ envVarName ++ ": " ++ proxyUrl))
      | .ok (some nport) =>
        if nport = 0 then
          .error (.missingPort ("Missing port in " ++ envVarName ++ ": " ++ proxyUrl))
        else .ok ()

/-- `ProxyConfig._validate_proxy_url`: the `try`/`except Exception` wrapper
around `validateInner`. -/
def validateProxyUrl (proxyUrl envVarName : String) : Except ValidationError Unit :=
  match validateInner proxyUrl envVarName with
  | .ok _ => .ok ()
  | .error k =>
    .error ⟨envVarName, proxyUrl,
      "Invalid proxy URL in " ++ envVarName ++ ": " ++ proxyUrl, k⟩

/-- The dataclass `ProxyConfig`: three optional proxy URL strings. -/
structure ProxyConfig where
  tools_proxy : Option String := none
  llm_proxy : Option String := none
  all_proxy : Option String := none
deriving Repr, DecidableEq

/-- Python truthiness of an optional string: `None` and `""` are falsy. -/
def truthy : Option String → Bool
  | none => false
  | some s => decide (s ≠ "")

/-- One iteration of the `__post_init__` loop: `if proxy_url:` then validate. -/
def validateField (name : String) (v : Option String) : Except ValidationError Unit :=
  match v with
  | none => .ok ()
  | some u => if u = "" then .ok () else validateProxyUrl u name

/-- `ProxyConfig(...)` including `__post_init__`: validates the three fields
in order (tools, llm, all) under their fixed logical names and yields the
config, or the first field's `ValueError`. -/
def mkProxyConfig? (tools llm all : Option String) : Except ValidationError ProxyConfig :=
  match validateField "STRIX_PROXY_TOOLS" tools with
  | .error e => .error e
  | .ok _ =>
    match validateField "STRIX_PROXY_LLM" llm with
    | .error e => .error e
    | .ok _ =>
      match validateField "STRIX_PROXY_ALL" all with
      | .error e => .error e
      | .ok _ => .ok ⟨tools, llm, all⟩

/-- Python `a or b` on optional strings: `b` when `a` is falsy, else `a`. -/
def pyOr (a b : Option String) : Option String :=
  if truthy a then a else b

/-- `ProxyConfig.get_tools_proxy`: `self.tools_proxy or self.all_proxy`. -/
def ProxyConfig.get_tools_proxy (cfg : ProxyConfig) : Option String :=
  pyOr cfg.tools_proxy cfg.all_proxy

/-- `ProxyConfig.get_llm_proxy`: `self.llm_proxy or self.all_proxy`. -/
def ProxyConfig.get_llm_proxy (cfg : ProxyConfig) : Option String :=
  pyOr cfg.llm_proxy cfg.all_proxy

/-- `ProxyConfig.get_requests_proxies`: pick the effective proxy by
`proxy_type == "tools"`, return `None` when it is falsy, otherwise the
two-key dict. -/
def ProxyConfig.get_requests_proxies (cfg : ProxyConfig) (proxy_type : String := "tools") :
    Option (List (String × String)) :=
  let proxy_url := if proxy_type = "tools" then cfg.get_tools_proxy else cfg.get_llm_proxy
  match proxy_url with
  | none => none
  | some u => if u = "" then none else some [("http", u), ("https", u)]

/-- `ProxyConfig.get_httpx_proxies`: like `get_requests_proxies` but re-parses
the effective URL (so `urlparse` exceptions propagate, hence `Except`); a
`socks5`/`socks5h` scheme yields the sentinel single-key dict, anything else
the scheme-prefixed two-key dict. -/
def ProxyConfig.get_httpx_proxies (cfg : ProxyConfig) (proxy_type : String := "tools") :
    Except String (Option (List (String × String))) :=
  let proxy_url := if proxy_type = "tools" then cfg.get_tools_proxy else cfg.get_llm_proxy
  match proxy_url with
  | none => .ok none
  | some u =>
    if u = "" then .ok none
    else
      match urlparse u with
      | .error m => .error m
      | .ok parsed =>
        if parsed.scheme = "socks5" ∨ parsed.scheme = "socks5h" then
          .ok (some [("_socks_proxy", u)])
        else
          .ok (some [("http://", u), ("https://", u)])

/-- `ProxyConfig.get_litellm_proxy_env`: empty dict when the effective LLM
proxy is falsy, otherwise `HTTP_PROXY` and `HTTPS_PROXY` both set to it. -/
def ProxyConfig.get_litellm_proxy_env (cfg : ProxyConfig) : List (String × String) :=
  match cfg.get_llm_proxy with
  | none => []
  | some u => if u = "" then [] else [("HTTP_PROXY", u), ("HTTPS_PROXY", u)]

/-! ## Environment, loader and the global instance -/

/-- The process environment (`os.environ`), observed only through `Env.get`.
Updates shadow earlier entries. -/
structure Env where
  vars : List (String × String)
deriving Repr, DecidableEq

/-- `os.getenv(k)` / `os.environ.get(k)`. -/
def Env.get (e : Env) (k : String) : Option String :=
  (e.vars.find? (fun p => p.1 == k)).map Prod.snd

/-- `os.environ[k] = v`. -/
def Env.set (e : Env) (k v : String) : Env :=
  ⟨(k, v) :: e.vars⟩

/-- The `for key, value in llm_proxy_env.items(): os.environ[key] = value`
loop of `configure_global_proxies`. -/
def setEnvVars (e : Env) : List (String × String) → Env
  | [] => e
  | (k, v) :: rest => setEnvVars (e.set k v) rest

/-- `load_proxy_config()`: reads the three `STRIX_PROXY_*` variables and
constructs a `ProxyConfig` (validation failures propagate). -/
def load_proxy_config (e : Env) : Except ValidationError ProxyConfig :=
  mkProxyConfig? (e.get "STRIX_PROXY_TOOLS") (e.get "STRIX_PROXY_LLM")
    (e.get "STRIX_PROXY_ALL")

/-- `configure_global_proxies()`: load, write `get_litellm_proxy_env` into the
environment, return the config (paired with the updated environment, which in
Python is the side effect on `os.environ`). -/
def configure_global_proxies (e : Env) : Except ValidationError (ProxyConfig × Env) :=
  match load_proxy_config e with
  | .error err => .error err
  | .ok config => .ok (config, setEnvVars e config.get_litellm_proxy_env)

/-- Process-wide mutable state: the `_global_proxy_config` cell plus the
environment. -/
structure GlobalState where
  cache : Option ProxyConfig
  env : Env
deriving Repr, DecidableEq

/-- `get_proxy_config()`: return the cached instance if present, otherwise run
`configure_global_proxies()` and cache its result. -/
def get_proxy_config (s : GlobalState) : Except ValidationError (ProxyConfig × GlobalState) :=
  match s.cache with
  | some c => .ok (c, s)
  | none =>
    match configure_global_proxies s.env with
    | .error err => .error err
    | .ok p => .ok (p.1, ⟨some p.1, p.2⟩)

/-! ## Spec-side characterizations used in the claims -/

/-- The spec's validity criterion for one URL, stated on the parse model:
parses, scheme in the supported set, non-empty hostname, explicit non-zero
port. -/
def specValidUrl (u : String) : Bool :=
  match urlparse u with
  | .error _ => false
  | .ok p =>
    decide (p.scheme ∈ supportedSchemes) && p.hostname.isSome &&
      (match p.port with
       | .ok (some nport) => decide (nport ≠ 0)
       | _ => false)

/-- A field passes `__post_init__` iff it is absent, empty, or a valid URL. -/
def presentValid (v : Option String) : Bool :=
  match v with
  | none => true
  | some u => if u = "" then true else specValidUrl u

/-- Whether validating `u` hits a low-level parse failure (in evaluation
order: `urlparse` itself raises, or the scheme and hostname checks pass and
`parsed.port` raises) — the spec's "unparseable garbage" as opposed to a
merely missing component. -/
def lowLevelFailure (u : String) : Bool :=
  match urlparse u with
  | .error _ => true
  | .ok p =>
    decide (p.scheme ∈ supportedSchemes) && p.hostname.isSome &&
      (match p.port with
       | .error _ => true
       | .ok _ => false)

/-- A `ProxyConfig` value reachable through `ProxyConfig(...)` in Python: its
fields pass validation. -/
def ProxyConfig.valid (cfg : ProxyConfig) : Bool :=
  (mkProxyConfig? cfg.tools_proxy cfg.llm_proxy cfg.all_proxy).isOk
/-! ## Helper lemmas -/

/-- The `try` body succeeds exactly on the spec's validity criterion. -/
theorem validateInner_isOk (u n : String) :
    (validateInner u n).isOk = specValidUrl u := by
  unfold validateInner specValidUrl
  cases urlparse u with
  | error m => rfl
  | ok p =>
    dsimp only
    by_cases hc : p.scheme ∈ supportedSchemes
    · rw [if_neg (not_not_intro hc)]
      cases hh : p.hostname with
      | none => simp [hc, hh, Except.isOk, Except.toBool]
      | some hname =>
        rw [if_neg (by simp [hh])]
        cases hport : p.port with
        | error m => simp [hc, hh, hport, Except.isOk, Except.toBool]
        | ok o =>
          cases o with
          | none => simp [hc, hh, hport, Except.isOk, Except.toBool]
          | some nport =>
            by_cases hz : nport = 0
            · simp [hc, hh, hport, hz, Except.isOk, Except.toBool]
            · simp [hc, hh, hport, hz, Except.isOk, Except.toBool]
    · simp [hc, Except.isOk, Except.toBool]

/-- `_validate_proxy_url` succeeds exactly on the spec's validity criterion. -/
theorem validateProxyUrl_isOk (u n : String) :
    (validateProxyUrl u n).isOk = specValidUrl u := by
  rw [← validateInner_isOk u n]
  unfold validateProxyUrl
  cases validateInner u n <;> rfl

/-- On a valid URL, `_validate_proxy_url` returns normally. -/
theorem validateProxyUrl_ok (u n : String) (h : specValidUrl u = true) :
    validateProxyUrl u n = .ok () := by
  have hk := validateProxyUrl_isOk u n
  rw [h] at hk
  cases he : validateProxyUrl u n with
  | ok x => cases x; rfl
  | error e => rw [he] at hk; cases hk

/-- Structure of the error escaping `_validate_proxy_url`. -/
theorem validateProxyUrl_error (u n : String) (e : ValidationError)
    (h : validateProxyUrl u n = .error e) :
    e.envVar = n ∧ e.url = u ∧
    e.msg = "Invalid proxy URL in " ++ n ++ ": " ++ u ∧
    validateInner u n = .error e.cause := by
  unfold validateProxyUrl at h
  cases hi : validateInner u n with
  | ok x => rw [hi] at h; cases h
  | error k =>
    rw [hi] at h
    injection h with h
    subst h
    exact ⟨rfl, rfl, rfl, rfl⟩

/-- The inner exception is a low-level parse failure exactly when validation
of the URL hits one (`urlparse` raising, or `parsed.port` raising after the
scheme and hostname checks pass). -/
theorem validateInner_error_cause (u n : String) (k : FailKind)
    (h : validateInner u n = .error k) :
    k.isParseError = lowLevelFailure u := by
  unfold validateInner at h
  cases hp : urlparse u with
  | error m =>
    rw [hp] at h
    dsimp only at h
    injection h with h
    subst h
    simp [lowLevelFailure, hp, FailKind.isParseError]
  | ok p =>
    rw [hp] at h
    dsimp only at h
    by_cases hc : p.scheme ∈ supportedSchemes
    · rw [if_neg (not_not_intro hc)] at h
      cases hh : p.hostname with
      | none =>
        rw [hh, if_pos rfl] at h
        injection h with h
        subst h
        simp [lowLevelFailure, hp, hh, FailKind.isParseError]
      | some hname =>
        rw [hh, if_neg (by simp)] at h
        cases hport : p.port with
        | error m =>
          rw [hport] at h
          injection h with h
          subst h
          simp [lowLevelFailure, hp, hc, hh, hport, FailKind.isParseError]
        | ok o =>
          rw [hport] at h
          cases o with
          | none =>
            injection h with h
            subst h
            simp [lowLevelFailure, hp, hh, hport, FailKind.isParseError]
          | some nport =>
            dsimp only at h
            by_cases hz : nport = 0
            · rw [if_pos hz] at h
              injection h with h
              subst h
              simp [lowLevelFailure, hp, hh, hport, FailKind.isParseError]
            · rw [if_neg hz] at h
              cases h
    · rw [if_pos hc] at h
      injection h with h
      subst h
      simp [lowLevelFailure, hp, hc, FailKind.isParseError]

/-- One loop iteration of `__post_init__` succeeds exactly on `presentValid`. -/
theorem validateField_isOk (n : String) (v : Option String) :
    (validateField n v).isOk = presentValid v := by
  cases v with
  | none => rfl
  | some u =>
    by_cases hu : u = ""
    · simp [validateField, presentValid, hu, Except.isOk, Except.toBool]
    · simp [validateField, presentValid, hu, validateProxyUrl_isOk]

/-- Construction succeeds exactly when all three fields pass `presentValid`. -/
theorem mk_isOk (t l a : Option String) :
    (mkProxyConfig? t l a).isOk =
      (presentValid t && presentValid l && presentValid a) := by
  unfold mkProxyConfig?
  rw [← validateField_isOk "STRIX_PROXY_TOOLS" t, ← validateField_isOk "STRIX_PROXY_LLM" l,
    ← validateField_isOk "STRIX_PROXY_ALL" a]
  cases validateField "STRIX_PROXY_TOOLS" t <;>
    cases validateField "STRIX_PROXY_LLM" l <;>
      cases validateField "STRIX_PROXY_ALL" a <;> rfl

/-- A successful construction stores the three inputs unchanged. -/
theorem mk_ok_fields (t l a : Option String) (cfg : ProxyConfig)
    (h : mkProxyConfig? t l a = .ok cfg) : cfg = ⟨t, l, a⟩ := by
  unfold mkProxyConfig? at h
  cases h1 : validateField "STRIX_PROXY_TOOLS" t <;> rw [h1] at h
  case error => cases h
  cases h2 : validateField "STRIX_PROXY_LLM" l <;> rw [h2] at h
  case error => cases h
  cases h3 : validateField "STRIX_PROXY_ALL" a <;> rw [h3] at h
  case error => cases h
  injection h with h
  exact h.symm

/-- Structure of a failing field's escaped error. -/
theorem validateField_error (n : String) (v : Option String) (e : ValidationError)
    (h : validateField n v = .error e) :
    v = some e.url ∧ e.envVar = n ∧
    e.msg = "Invalid proxy URL in " ++ n ++ ": " ++ e.url ∧
    specValidUrl e.url = false ∧
    e.cause.isParseError = lowLevelFailure e.url := by
  cases v with
  | none => cases h
  | some u =>
    by_cases hu : u = ""
    · simp [validateField, hu] at h
    · have h9 : validateProxyUrl u n = .error e := by
        have := h
        simp only [validateField] at this
        rw [if_neg hu] at this
        exact this
      obtain ⟨h1, h2, h3, h4⟩ := validateProxyUrl_error u n e h9
      have h5 : specValidUrl e.url = false := by
        have hk := validateProxyUrl_isOk u n
        rw [h9, ← h2] at hk
        exact hk.symm
      refine ⟨by rw [h2], h1, by rw [h2, h3], h5, ?_⟩
      rw [h2]
      exact validateInner_error_cause u n e.cause h4

/-- If a URL is spec-valid it is non-empty. -/
theorem specValid_ne_empty (u : String) (h : specValidUrl u = true) : u ≠ "" := by
  intro he
  subst he
  exact absurd h (by decide)

/-- A spec-valid URL parses. -/
theorem specValid_parse_ok (u : String) (h : specValidUrl u = true) :
    ∃ p, urlparse u = .ok p := by
  unfold specValidUrl at h
  cases hp : urlparse u with
  | error m => rw [hp] at h; cases h
  | ok p => exact ⟨p, rfl⟩

/-- A constructed (validated) config has all three fields `presentValid`. -/
theorem valid_fields (cfg : ProxyConfig) (hv : cfg.valid = true) :
    presentValid cfg.tools_proxy = true ∧ presentValid cfg.llm_proxy = true ∧
    presentValid cfg.all_proxy = true := by
  unfold ProxyConfig.valid at hv
  rw [mk_isOk] at hv
  simp only [Bool.and_eq_true] at hv
  exact ⟨hv.1.1, hv.1.2, hv.2⟩

/-- A non-empty `presentValid` value is spec-valid. -/
theorem presentValid_some (u : String) (h : presentValid (some u) = true)
    (hne : u ≠ "") : specValidUrl u = true := by
  simp only [presentValid] at h
  rw [if_neg hne] at h
  exact h

/-- A non-empty effective proxy of a validated config is spec-valid. -/
theorem valid_effective_spec (cfg : ProxyConfig) (hv : cfg.valid = true) (u : String)
    (h : cfg.get_tools_proxy = some u ∨ cfg.get_llm_proxy = some u) (hne : u ≠ "") :
    specValidUrl u = true := by
  obtain ⟨h1, h2, h3⟩ := valid_fields cfg hv
  have step : ∀ f : Option String, presentValid f = true → pyOr f cfg.all_proxy = some u →
      specValidUrl u = true := by
    intro f hf hor
    unfold pyOr at hor
    cases ht : truthy f with
    | true => rw [ht, if_pos rfl] at hor; rw [hor] at hf; exact presentValid_some u hf hne
    | false =>
      rw [ht] at hor
      simp only [Bool.false_eq_true, if_false] at hor
      rw [hor] at h3
      exact presentValid_some u h3 hne
  cases h with
  | inl htools => exact step cfg.tools_proxy h1 htools
  | inr hllm => exact step cfg.llm_proxy h2 hllm

/-- `get_httpx_proxies` never raises on a validated config. -/
theorem httpx_isOk (cfg : ProxyConfig) (hv : cfg.valid = true) (pt : String) :
    (cfg.get_httpx_proxies pt).isOk = true := by
  unfold ProxyConfig.get_httpx_proxies
  by_cases hb : pt = "tools" <;> simp only [hb, if_true, if_false]
  case pos =>
    cases heff : cfg.get_tools_proxy with
    | none => rfl
    | some u =>
      by_cases hu : u = ""
      · simp [hu, Except.isOk, Except.toBool]
      · have hs : specValidUrl u = true := valid_effective_spec cfg hv u (Or.inl heff) hu
        obtain ⟨p, hp⟩ := specValid_parse_ok u hs
        by_cases hsc : p.scheme = "socks5" ∨ p.scheme = "socks5h" <;>
          simp [hu, hp, hsc, Except.isOk, Except.toBool]
  case neg =>
    cases heff : cfg.get_llm_proxy with
    | none => rfl
    | some u =>
      by_cases hu : u = ""
      · simp [hu, Except.isOk, Except.toBool]
      · have hs : specValidUrl u = true := valid_effective_spec cfg hv u (Or.inr heff) hu
        obtain ⟨p, hp⟩ := specValid_parse_ok u hs
        by_cases hsc : p.scheme = "socks5" ∨ p.scheme = "socks5h" <;>
          simp [hu, hp, hsc, Except.isOk, Except.toBool]

/-- Writing a key then reading it back. -/
theorem Env.get_set_self (e : Env) (k v : String) : (e.set k v).get k = some v := by
  unfold Env.get Env.set
  simp [List.find?]

/-- Writing one key leaves every other key unchanged. -/
theorem Env.get_set_ne (e : Env) (k k2 v : String) (h : k2 ≠ k) :
    (e.set k v).get k2 = e.get k2 := by
  have hb : (k == k2) = false := beq_eq_false_iff_ne.mpr (Ne.symm h)
  unfold Env.get Env.set
  simp [List.find?, hb]

/-! ## Claim theorems -/

/-- C1: Construction of `ProxyConfig` succeeds iff every present (truthy)
field parses as a URL with a supported scheme, a non-empty hostname, and an
explicit non-zero port; a successful construction stores the three inputs
verbatim; and every valid URL round-trips unchanged into the `effective_*`
getters and the adapter outputs. On failure, no config is produced (the
`Except` is an error). -/
theorem C1_construction_validation (tools llm all : Option String) (u : String) :
    ((mkProxyConfig? tools llm all).isOk =
      (presentValid tools && presentValid llm && presentValid all)) ∧
    (∀ cfg, mkProxyConfig? tools llm all = .ok cfg → cfg = ⟨tools, llm, all⟩) ∧
    (specValidUrl u = true →
      mkProxyConfig? none none (some u) = .ok ⟨none, none, some u⟩ ∧
      (ProxyConfig.mk none none (some u)).get_tools_proxy = some u ∧
      (ProxyConfig.mk none none (some u)).get_llm_proxy = some u ∧
      (ProxyConfig.mk none none (some u)).get_requests_proxies "tools" =
        some [("http", u), ("https", u)] ∧
      (ProxyConfig.mk none none (some u)).get_litellm_proxy_env =
        [("HTTP_PROXY", u), ("HTTPS_PROXY", u)] ∧
      ((ProxyConfig.mk none none (some u)).get_httpx_proxies "tools" =
          .ok (some [("_socks_proxy", u)]) ∨
        (ProxyConfig.mk none none (some u)).get_httpx_proxies "tools" =
          .ok (some [("http://", u), ("https://", u)]))) := by
  refine ⟨mk_isOk tools llm all, fun cfg h => mk_ok_fields tools llm all cfg h, fun hs => ?_⟩
  have hne : u ≠ "" := specValid_ne_empty u hs
  refine ⟨?_, ?_, ?_, ?_, ?_, ?_⟩
  · unfold mkProxyConfig?
    dsimp only [validateField]
    rw [if_neg hne, validateProxyUrl_ok u "STRIX_PROXY_ALL" hs]
  · simp [ProxyConfig.get_tools_proxy, pyOr, truthy]
  · simp [ProxyConfig.get_llm_proxy, pyOr, truthy]
  · simp [ProxyConfig.get_requests_proxies, ProxyConfig.get_tools_proxy, pyOr, truthy, hne]
  · simp [ProxyConfig.get_litellm_proxy_env, ProxyConfig.get_llm_proxy, pyOr, truthy, hne]
  · obtain ⟨p, hp⟩ := specValid_parse_ok u hs
    by_cases hsc : p.scheme = "socks5" ∨ p.scheme = "socks5h"
    · exact Or.inl (by simp [ProxyConfig.get_httpx_proxies, ProxyConfig.get_tools_proxy,
        pyOr, truthy, hne, hp, hsc])
    · exact Or.inr (by simp [ProxyConfig.get_httpx_proxies, ProxyConfig.get_tools_proxy,
        pyOr, truthy, hne, hp, hsc])

/-- C1 witness: the criterion and the round-trip at the concrete valid URL
`http://a:1`. -/
theorem C1_construction_validation_witness :
    (mkProxyConfig? none none (some "http://a:1")).isOk = true ∧
    mkProxyConfig? none none (some "http://a:1") = .ok ⟨none, none, some "http://a:1"⟩ ∧
    (ProxyConfig.mk none none (some "http://a:1")).get_requests_proxies "tools" =
      some [("http", "http://a:1"), ("https", "http://a:1")] := by
  have h := C1_construction_validation none none (some "http://a:1") "http://a:1"
  have h3 := h.2.2 (by decide)
  exact ⟨by rw [h.1]; decide, h3.1, h3.2.2.2.1⟩

/-- C2: when construction fails, the escaped error's message is exactly
"Invalid proxy URL in {field}: {url}" with the fixed logical field name and
the offending URL; the named field indeed holds that (invalid) URL; and the
error's attached cause is the underlying low-level parse failure exactly when
the URL is unparseable garbage (for a merely missing scheme/host/port the
cause is the validator's own component error, not a parse failure). -/
theorem C2_error_reporting (tools llm all : Option String) (err : ValidationError)
    (h : mkProxyConfig? tools llm all = .error err) :
    err.msg = "Invalid proxy URL in " ++ err.envVar ++ ": " ++ err.url ∧
    ((err.envVar = "STRIX_PROXY_TOOLS" ∧ tools = some err.url) ∨
     (err.envVar = "STRIX_PROXY_LLM" ∧ llm = some err.url) ∨
     (err.envVar = "STRIX_PROXY_ALL" ∧ all = some err.url)) ∧
    specValidUrl err.url = false ∧
    err.cause.isParseError = lowLevelFailure err.url := by
  unfold mkProxyConfig? at h
  cases h1 : validateField "STRIX_PROXY_TOOLS" tools <;> rw [h1] at h <;> dsimp only at h
  case error e =>
    injection h with h
    subst h
    obtain ⟨ha, hb, hm, hd, he⟩ := validateField_error "STRIX_PROXY_TOOLS" tools e h1
    exact ⟨by rw [hm, hb], Or.inl ⟨hb, ha⟩, hd, he⟩
  case ok _ =>
    cases h2 : validateField "STRIX_PROXY_LLM" llm <;> rw [h2] at h <;> dsimp only at h
    case error e =>
      injection h with h
      subst h
      obtain ⟨ha, hb, hm, hd, he⟩ := validateField_error "STRIX_PROXY_LLM" llm e h2
      exact ⟨by rw [hm, hb], Or.inr (Or.inl ⟨hb, ha⟩), hd, he⟩
    case ok _ =>
      cases h3 : validateField "STRIX_PROXY_ALL" all <;> rw [h3] at h <;> dsimp only at h
      case error e =>
        injection h with h
        subst h
        obtain ⟨ha, hb, hm, hd, he⟩ := validateField_error "STRIX_PROXY_ALL" all e h3
        exact ⟨by rw [hm, hb], Or.inr (Or.inr ⟨hb, ha⟩), hd, he⟩
      case ok _ => cases h

/-- C2 witness: a missing-component failure (no port) carries a
non-parse-failure cause, while an unparseable-garbage failure (non-numeric
port text) carries a parse-failure cause. -/
theorem C2_error_reporting_witness :
    ((ValidationError.mk "STRIX_PROXY_TOOLS" "http://host"
        "Invalid proxy URL in STRIX_PROXY_TOOLS: http://host"
        (.missingPort "Missing port in STRIX_PROXY_TOOLS: http://host")).cause.isParseError =
      lowLevelFailure "http://host") ∧
    ((ValidationError.mk "STRIX_PROXY_LLM" "http://host:abc"
        "Invalid proxy URL in STRIX_PROXY_LLM: http://host:abc"
        (.parseError "Port could not be cast to integer value as abc")).cause.isParseError =
      lowLevelFailure "http://host:abc") := by
  refine ⟨(C2_error_reporting (some "http://host") none none
      (ValidationError.mk "STRIX_PROXY_TOOLS" "http://host"
        "Invalid proxy URL in STRIX_PROXY_TOOLS: http://host"
        (.missingPort "Missing port in STRIX_PROXY_TOOLS: http://host"))
      (by decide)).2.2.2,
    (C2_error_reporting none (some "http://host:abc") none
      (ValidationError.mk "STRIX_PROXY_LLM" "http://host:abc"
        "Invalid proxy URL in STRIX_PROXY_LLM: http://host:abc"
        (.parseError "Port could not be cast to integer value as abc"))
      (by decide)).2.2.2⟩

/-- C3: `get_tools_proxy` returns `tools_proxy` when it is present (truthy),
else `all_proxy`; `get_llm_proxy` likewise with `llm_proxy`; and when both the
specific field and `all_proxy` are absent the result is absent (falsy). -/
theorem C3_precedence (cfg : ProxyConfig) :
    (truthy cfg.tools_proxy = true → cfg.get_tools_proxy = cfg.tools_proxy) ∧
    (truthy cfg.tools_proxy = false → cfg.get_tools_proxy = cfg.all_proxy) ∧
    (truthy cfg.llm_proxy = true → cfg.get_llm_proxy = cfg.llm_proxy) ∧
    (truthy cfg.llm_proxy = false → cfg.get_llm_proxy = cfg.all_proxy) ∧
    (truthy cfg.tools_proxy = false → truthy cfg.all_proxy = false →
      truthy cfg.get_tools_proxy = false) ∧
    (truthy cfg.llm_proxy = false → truthy cfg.all_proxy = false →
      truthy cfg.get_llm_proxy = false) := by
  unfold ProxyConfig.get_tools_proxy ProxyConfig.get_llm_proxy pyOr
  exact ⟨fun h => by simp [h], fun h => by simp [h], fun h => by simp [h],
    fun h => by simp [h], fun h1 h2 => by simp [h1, h2], fun h1 h2 => by simp [h1, h2]⟩

/-- C3 witness: precedence at a concrete config with a tools proxy and a
catch-all. -/
theorem C3_precedence_witness :
    (ProxyConfig.mk (some "http://a:1") none (some "http://b:2")).get_tools_proxy =
      some "http://a:1" ∧
    (ProxyConfig.mk (some "http://a:1") none (some "http://b:2")).get_llm_proxy =
      some "http://b:2" := by
  exact ⟨(C3_precedence ⟨some "http://a:1", none, some "http://b:2"⟩).1 (by decide),
    (C3_precedence ⟨some "http://a:1", none, some "http://b:2"⟩).2.2.2.1 (by decide)⟩

/-- C4: `configure_global_proxies` returns exactly the config loaded from the
three `STRIX_PROXY_*` environment variables, writes every entry of
`get_litellm_proxy_env` into the environment (overwriting what was there),
and leaves every key other than `HTTP_PROXY`/`HTTPS_PROXY` unchanged. -/
theorem C4_configure_env (e : Env) (cfg : ProxyConfig) (e2 : Env)
    (h : configure_global_proxies e = .ok (cfg, e2)) :
    load_proxy_config e = .ok cfg ∧
    (∀ k v, (k, v) ∈ cfg.get_litellm_proxy_env → e2.get k = some v) ∧
    (∀ k, k ≠ "HTTP_PROXY" → k ≠ "HTTPS_PROXY" → e2.get k = e.get k) := by
  unfold configure_global_proxies at h
  cases hl : load_proxy_config e <;> rw [hl] at h <;> dsimp only at h
  case error => cases h
  case ok c =>
    injection h with h
    injection h with hcf hev
    subst hcf
    subst hev
    have hshape : c.get_litellm_proxy_env = [] ∨
        ∃ u2, c.get_litellm_proxy_env = [("HTTP_PROXY", u2), ("HTTPS_PROXY", u2)] := by
      unfold ProxyConfig.get_litellm_proxy_env
      cases c.get_llm_proxy with
      | none => exact Or.inl rfl
      | some u2 =>
        dsimp only
        by_cases hz : u2 = ""
        · rw [if_pos hz]
          exact Or.inl rfl
        · rw [if_neg hz]
          exact Or.inr ⟨u2, rfl⟩
    refine ⟨rfl, ?_, ?_⟩
    · rcases hshape with hE | ⟨u2, hE⟩ <;> rw [hE]
      · intro k v hm
        cases hm
      · intro k v hm
        dsimp only [setEnvVars]
        cases hm with
        | head =>
          rw [Env.get_set_ne _ _ _ _ (by decide)]
          exact Env.get_set_self _ _ _
        | tail _ hm2 =>
          cases hm2 with
          | head => exact Env.get_set_self _ _ _
          | tail _ hm3 => cases hm3
    · rcases hshape with hE | ⟨u2, hE⟩ <;> rw [hE]
      · intro k _ _
        rfl
      · intro k hk1 hk2
        dsimp only [setEnvVars]
        rw [Env.get_set_ne _ _ _ _ hk2, Env.get_set_ne _ _ _ _ hk1]

/-- C4 witness: configuring with an LLM proxy overwrites a pre-existing
`HTTP_PROXY` and leaves an unrelated variable untouched. -/
theorem C4_configure_env_witness :
    (Env.mk [("HTTPS_PROXY", "http://p:8080"), ("HTTP_PROXY", "http://p:8080"),
        ("STRIX_PROXY_LLM", "http://p:8080"), ("HTTP_PROXY", "old"),
        ("OTHER", "x")]).get "HTTP_PROXY" = some "http://p:8080" ∧
    (Env.mk [("HTTPS_PROXY", "http://p:8080"), ("HTTP_PROXY", "http://p:8080"),
        ("STRIX_PROXY_LLM", "http://p:8080"), ("HTTP_PROXY", "old"),
        ("OTHER", "x")]).get "OTHER" =
      (Env.mk [("STRIX_PROXY_LLM", "http://p:8080"), ("HTTP_PROXY", "old"),
        ("OTHER", "x")]).get "OTHER" := by
  have h := C4_configure_env
    (Env.mk [("STRIX_PROXY_LLM", "http://p:8080"), ("HTTP_PROXY", "old"), ("OTHER", "x")])
    ⟨none, some "http://p:8080", none⟩
    (Env.mk [("HTTPS_PROXY", "http://p:8080"), ("HTTP_PROXY", "http://p:8080"),
      ("STRIX_PROXY_LLM", "http://p:8080"), ("HTTP_PROXY", "old"), ("OTHER", "x")])
    (by decide)
  exact ⟨h.2.1 "HTTP_PROXY" "http://p:8080" (by decide),
    h.2.2 "OTHER" (by decide) (by decide)⟩

/-- C5: `get_proxy_config` constructs the process-wide instance via
`configure_global_proxies` on the first call (empty cache) and caches it;
any subsequent call returns the identical cached instance and ignores the
environment entirely (mutating it between calls changes nothing). -/
theorem C5_global_cache (s : GlobalState) (c : ProxyConfig) (s1 : GlobalState)
    (h : get_proxy_config s = .ok (c, s1)) :
    (s.cache = none →
      configure_global_proxies s.env = .ok (c, s1.env) ∧ s1.cache = some c) ∧
    (∀ e2 : Env, get_proxy_config ⟨s1.cache, e2⟩ = .ok (c, ⟨s1.cache, e2⟩)) := by
  unfold get_proxy_config at h
  cases hcache : s.cache <;> rw [hcache] at h <;> dsimp only at h
  case some c0 =>
    injection h with h
    injection h with h1 h2
    subst h1
    subst h2
    refine ⟨fun hn => (by cases hn), fun e2 => ?_⟩
    rw [hcache]
    rfl
  case none =>
    cases hcg : configure_global_proxies s.env <;> rw [hcg] at h <;> dsimp only at h
    case error => cases h
    case ok p =>
      injection h with h
      injection h with h1 h2
      subst h1
      subst h2
      exact ⟨fun _ => ⟨rfl, rfl⟩, fun e2 => rfl⟩

/-- C5 witness: after a first call from an empty cache has cached the
constructed config, a call with a mutated environment still returns the
cached instance unchanged. -/
theorem C5_global_cache_witness :
    get_proxy_config
        ⟨some ⟨none, none, none⟩, Env.mk [("STRIX_PROXY_ALL", "http://b:2")]⟩ =
      .ok (⟨none, none, none⟩,
        ⟨some ⟨none, none, none⟩, Env.mk [("STRIX_PROXY_ALL", "http://b:2")]⟩) := by
  have h := C5_global_cache ⟨none, Env.mk []⟩ ⟨none, none, none⟩
    ⟨some ⟨none, none, none⟩, Env.mk []⟩ (by decide)
  exact h.2 (Env.mk [("STRIX_PROXY_ALL", "http://b:2")])

/-- C6: on a constructed config, `get_httpx_proxies` returns `None` when the
class has no effective proxy; when the effective proxy parses with scheme
`socks5`/`socks5h` it returns the single sentinel-keyed map holding the raw
URL, and otherwise the map keyed `http://` and `https://` both holding the
URL; and it never raises. -/
theorem C6_httpx_shapes (cfg : ProxyConfig) (hv : cfg.valid = true) (pt : String)
    (_hpt : pt = "tools" ∨ pt = "llm") :
    (truthy (if pt = "tools" then cfg.get_tools_proxy else cfg.get_llm_proxy) = false →
      cfg.get_httpx_proxies pt = .ok none) ∧
    (∀ u, (if pt = "tools" then cfg.get_tools_proxy else cfg.get_llm_proxy) = some u →
      u ≠ "" → ∀ p, urlparse u = .ok p →
      cfg.get_httpx_proxies pt =
        .ok (some (if p.scheme = "socks5" ∨ p.scheme = "socks5h" then
          [("_socks_proxy", u)] else [("http://", u), ("https://", u)]))) ∧
    (cfg.get_httpx_proxies pt).isOk = true := by
  refine ⟨?_, ?_, httpx_isOk cfg hv pt⟩
  · intro ht
    unfold ProxyConfig.get_httpx_proxies
    by_cases hb : pt = "tools"
    · rw [if_pos hb] at ht ⊢
      cases heff : cfg.get_tools_proxy with
      | none => rfl
      | some u =>
        rw [heff] at ht
        simp only [truthy, decide_eq_false_iff_not, not_not] at ht
        simp [heff, ht]
    · rw [if_neg hb] at ht ⊢
      cases heff : cfg.get_llm_proxy with
      | none => rfl
      | some u =>
        rw [heff] at ht
        simp only [truthy, decide_eq_false_iff_not, not_not] at ht
        simp [heff, ht]
  · intro u hu hne p hp
    unfold ProxyConfig.get_httpx_proxies
    by_cases hb : pt = "tools" <;>
      [rw [if_pos hb] at hu ⊢; rw [if_neg hb] at hu ⊢] <;>
      rw [hu] <;> dsimp only <;> rw [if_neg hne, hp] <;>
      by_cases hsc : p.scheme = "socks5" ∨ p.scheme = "socks5h" <;>
      simp [hsc]

/-- C6 witness: a SOCKS5 effective proxy yields the sentinel map; an HTTP
effective proxy (resolved through the catch-all) yields the scheme-prefixed
map. -/
theorem C6_httpx_shapes_witness :
    (ProxyConfig.mk (some "socks5://p:1080") none (some "http://b:2")).get_httpx_proxies
        "tools" = .ok (some [("_socks_proxy", "socks5://p:1080")]) ∧
    (ProxyConfig.mk none none (some "http://b:2")).get_httpx_proxies "llm" =
      .ok (some [("http://", "http://b:2"), ("https://", "http://b:2")]) := by
  constructor
  · have h := (C6_httpx_shapes ⟨some "socks5://p:1080", none, some "http://b:2"⟩
      (by decide) "tools" (Or.inl rfl)).2.1 "socks5://p:1080" (by decide) (by decide)
      ⟨"socks5", "p:1080", "", "", ""⟩ (by decide)
    simpa using h
  · have h := (C6_httpx_shapes ⟨none, none, some "http://b:2"⟩
      (by decide) "llm" (Or.inr rfl)).2.1 "http://b:2" (by decide) (by decide)
      ⟨"http", "b:2", "", "", ""⟩ (by decide)
    simpa using h

/-- C7: `get_requests_proxies` returns `None` when the class has no effective
proxy, and otherwise the map with keys `http` and `https` both holding the
effective URL verbatim, with no condition on the proxy's own scheme. -/
theorem C7_requests_shapes (cfg : ProxyConfig) (pt : String)
    (_hpt : pt = "tools" ∨ pt = "llm") :
    (truthy (if pt = "tools" then cfg.get_tools_proxy else cfg.get_llm_proxy) = false →
      cfg.get_requests_proxies pt = none) ∧
    (∀ u, (if pt = "tools" then cfg.get_tools_proxy else cfg.get_llm_proxy) = some u →
      u ≠ "" → cfg.get_requests_proxies pt = some [("http", u), ("https", u)]) := by
  constructor
  · intro ht
    unfold ProxyConfig.get_requests_proxies
    by_cases hb : pt = "tools"
    · rw [if_pos hb] at ht ⊢
      cases heff : cfg.get_tools_proxy with
      | none => rfl
      | some u =>
        rw [heff] at ht
        simp only [truthy, decide_eq_false_iff_not, not_not] at ht
        simp [heff, ht]
    · rw [if_neg hb] at ht ⊢
      cases heff : cfg.get_llm_proxy with
      | none => rfl
      | some u =>
        rw [heff] at ht
        simp only [truthy, decide_eq_false_iff_not, not_not] at ht
        simp [heff, ht]
  · intro u hu hne
    unfold ProxyConfig.get_requests_proxies
    by_cases hb : pt = "tools" <;>
      [rw [if_pos hb] at hu ⊢; rw [if_neg hb] at hu ⊢] <;>
      rw [hu] <;> dsimp only <;> rw [if_neg hne]

/-- C7 witness: a SOCKS5 URL is passed through verbatim under the plain
`http`/`https` keys, and an absent class yields `None`. -/
theorem C7_requests_shapes_witness :
    (ProxyConfig.mk none none (some "socks5://p:1080")).get_requests_proxies "llm" =
      some [("http", "socks5://p:1080"), ("https", "socks5://p:1080")] ∧
    (ProxyConfig.mk none (some "http://c:3") none).get_requests_proxies "tools" =
      none := by
  exact ⟨(C7_requests_shapes ⟨none, none, some "socks5://p:1080"⟩ "llm"
      (Or.inr rfl)).2 "socks5://p:1080" (by decide) (by decide),
    (C7_requests_shapes ⟨none, some "http://c:3", none⟩ "tools"
      (Or.inl rfl)).1 (by decide)⟩

/-- C8: `get_litellm_proxy_env` is empty when there is no effective LLM
proxy, and otherwise sets exactly `HTTP_PROXY` and `HTTPS_PROXY`, both to the
effective LLM proxy URL. -/
theorem C8_litellm_env (cfg : ProxyConfig) :
    (truthy cfg.get_llm_proxy = false → cfg.get_litellm_proxy_env = []) ∧
    (∀ u, cfg.get_llm_proxy = some u → u ≠ "" →
      cfg.get_litellm_proxy_env = [("HTTP_PROXY", u), ("HTTPS_PROXY", u)]) := by
  constructor
  · intro ht
    unfold ProxyConfig.get_litellm_proxy_env
    cases hl : cfg.get_llm_proxy with
    | none => rfl
    | some u =>
      rw [hl] at ht
      simp only [truthy, decide_eq_false_iff_not, not_not] at ht
      simp [ht]
  · intro u hu hne
    unfold ProxyConfig.get_litellm_proxy_env
    rw [hu]
    dsimp only
    rw [if_neg hne]

/-- C8 witness: an effective LLM proxy produces both variables; no LLM or
catch-all proxy produces the empty map. -/
theorem C8_litellm_env_witness :
    (ProxyConfig.mk none (some "http://p:8080") none).get_litellm_proxy_env =
      [("HTTP_PROXY", "http://p:8080"), ("HTTPS_PROXY", "http://p:8080")] ∧
    (ProxyConfig.mk (some "http://a:1") none none).get_litellm_proxy_env = [] := by
  exact ⟨(C8_litellm_env ⟨none, some "http://p:8080", none⟩).2 "http://p:8080"
      (by decide) (by decide),
    (C8_litellm_env ⟨some "http://a:1", none, none⟩).1 (by decide)⟩

/-- C9: an empty-string field is treated as absent everywhere: construction
skips its validation (success is unchanged if an empty string replaces an
absent field, and a config whose only field is the empty string constructs),
and the precedence getters fall through it to `all_proxy`. -/
theorem C9_empty_string_absent (llm all : Option String) (u : String) :
    ((mkProxyConfig? (some "") llm all).isOk = (mkProxyConfig? none llm all).isOk) ∧
    (∀ t a, (mkProxyConfig? t (some "") a).isOk = (mkProxyConfig? t none a).isOk) ∧
    (∀ t l, (mkProxyConfig? t l (some "")).isOk = (mkProxyConfig? t l none).isOk) ∧
    mkProxyConfig? (some "") none none = .ok ⟨some "", none, none⟩ ∧
    (∀ cfg : ProxyConfig, cfg.tools_proxy = some "" → cfg.all_proxy = some u →
      cfg.get_tools_proxy = some u) ∧
    (∀ cfg : ProxyConfig, cfg.llm_proxy = some "" → cfg.all_proxy = some u →
      cfg.get_llm_proxy = some u) := by
  refine ⟨?_, ?_, ?_, rfl, ?_, ?_⟩
  · rw [mk_isOk, mk_isOk]
    rfl
  · intro t a
    rw [mk_isOk, mk_isOk]
    rfl
  · intro t l
    rw [mk_isOk, mk_isOk]
    rfl
  · intro cfg h1 h2
    unfold ProxyConfig.get_tools_proxy pyOr
    rw [h1, h2]
    rfl
  · intro cfg h1 h2
    unfold ProxyConfig.get_llm_proxy pyOr
    rw [h1, h2]
    rfl

/-- C9 witness: falling through an empty-string tools field to the catch-all,
and construction success being unchanged by the empty string. -/
theorem C9_empty_string_absent_witness :
    (ProxyConfig.mk (some "") none (some "http://b:2")).get_tools_proxy =
      some "http://b:2" ∧
    (mkProxyConfig? (some "") none (some "http://b:2")).isOk =
      (mkProxyConfig? none none (some "http://b:2")).isOk := by
  have h := C9_empty_string_absent none (some "http://b:2") "http://b:2"
  exact ⟨h.2.2.2.2.1 ⟨some "", none, some "http://b:2"⟩ rfl rfl, h.1⟩

/-- C10: for every `proxy_type` string other than exactly "tools" the two
adapter methods resolve the LLM proxy (they agree with the call at "llm"),
and on a constructed config no `proxy_type` value makes `get_httpx_proxies`
raise (`get_requests_proxies` is total by its type). -/
theorem C10_proxy_type_fallthrough (cfg : ProxyConfig) (hv : cfg.valid = true)
    (s : String) (hs : s ≠ "tools") :
    cfg.get_requests_proxies s = cfg.get_requests_proxies "llm" ∧
    cfg.get_httpx_proxies s = cfg.get_httpx_proxies "llm" ∧
    (cfg.get_httpx_proxies s).isOk = true ∧
    (cfg.get_httpx_proxies "tools").isOk = true := by
  refine ⟨?_, ?_, httpx_isOk cfg hv s, httpx_isOk cfg hv "tools"⟩
  · unfold ProxyConfig.get_requests_proxies
    rw [if_neg hs, if_neg (by decide)]
  · unfold ProxyConfig.get_httpx_proxies
    rw [if_neg hs, if_neg (by decide)]

/-- C10 witness: the invalid traffic-class string "llms" (and the empty
string) resolve the LLM proxy and raise nothing. -/
theorem C10_proxy_type_fallthrough_witness :
    (ProxyConfig.mk (some "http://a:1") (some "http://c:3") none).get_requests_proxies
        "llms" =
      (ProxyConfig.mk (some "http://a:1") (some "http://c:3") none).get_requests_proxies
        "llm" ∧
    ((ProxyConfig.mk (some "http://a:1") (some "http://c:3") none).get_httpx_proxies
        "").isOk = true := by
  exact ⟨(C10_proxy_type_fallthrough ⟨some "http://a:1", some "http://c:3", none⟩
      (by decide) "llms" (by decide)).1,
    (C10_proxy_type_fallthrough ⟨some "http://a:1", some "http://c:3", none⟩
      (by decide) "" (by decide)).2.2.1⟩

end Strix
